import Mathlib

/-!
Shallow embedding of the fetch-and-extract pipeline of
`mcp_bible/bible_service.py` (`BibleService`): the reference splitter,
the HTML passage extractor `_parse_passage`, and the envelope assembly
`fetch_passage`.  The upstream HTTP fetch `_fetch_html` is abstracted as
an oracle `String → String → Except String Html`: a successful fetch
yields the parsed markup, a transport failure (network error or the
exception raised by `raise_for_status` on a non-success status) yields
the exception's message.
-/

/-- Characters removed by Python's `str.strip()` on ASCII input: space,
tab, newline, carriage return, vertical tab, form feed. -/
def pyWs (c : Char) : Bool :=
  c = ' ' || c = '\t' || c = '\n' || c = '\r' || c = '\x0b' || c = '\x0c'

/-- Python `s.strip()`: drop leading and trailing whitespace. -/
def pyStrip (s : String) : String :=
  String.mk (((s.data.dropWhile pyWs).reverse.dropWhile pyWs).reverse)

/-- Python `s.split(";")` on the character list: split at every `';'`,
producing one (possibly empty) piece per gap, `n` separators giving
`n + 1` pieces. -/
def splitSemiChars : List Char → List (List Char)
  | [] => [[]]
  | c :: cs =>
    if c = ';' then [] :: splitSemiChars cs
    else
      match splitSemiChars cs with
      | [] => [[c]]
      | piece :: pieces => (c :: piece) :: pieces

/-- Python `passage.split(";")`. -/
def pySplitSemi (s : String) : List String :=
  (splitSemiChars s.data).map String.mk

/-- The splitter of `fetch_passage` line 73:
`[p.strip() for p in passage.split(";") if p.strip()]`. -/
def splitPassages (passage : String) : List String :=
  (pySplitSemi passage).filterMap fun p =>
    if pyStrip p = "" then none else some (pyStrip p)

/-- An HTML node as handled by BeautifulSoup: a text node, or an element
with a tag name, a (possibly empty) list of classes from its `class`
attribute, and children. -/
inductive Node where
  | text (s : String)
  | elem (tag : String) (classes : List String) (children : List Node)

/-- A parsed document: the top-level nodes of the soup. -/
abbrev Html := List Node

/-- First descendant (document preorder: a node before its own subtree,
a subtree before the following siblings) satisfying the predicate;
the node the search starts from is itself excluded, as in
BeautifulSoup's `find`/`find_all` on a tag. -/
def findIn (p : Node → Bool) : Node → Option Node
  | .text _ => none
  | .elem _ _ cs => go cs
where go : List Node → Option Node
  | [] => none
  | n :: ns =>
    if p n then some n
    else
      match findIn p n with
      | some d => some d
      | none => go ns

/-- BeautifulSoup `soup.find(...)`: search the whole document.  The
soup's own `[document]` root never matches a tag-name predicate. -/
def soupFind (p : Node → Bool) (doc : Html) : Option Node :=
  findIn p (Node.elem "[document]" [] doc)

/-- All descendants satisfying the predicate, in document order, the
starting node itself excluded: BeautifulSoup `tag.find_all(...)`. -/
def findAll (p : Node → Bool) : Node → List Node
  | .text _ => []
  | .elem _ _ cs => go cs
where go : List Node → List Node
  | [] => []
  | n :: ns => (if p n then [n] else []) ++ findAll p n ++ go ns

/-- Remove (as `decompose` does, with the whole subtree) every
descendant satisfying the predicate; the starting node itself is
never tested, since `find_all` only yields proper descendants. -/
def removeAll (p : Node → Bool) : Node → Node
  | .text s => .text s
  | .elem t c cs => .elem t c (go cs)
where go : List Node → List Node
  | [] => []
  | n :: ns => if p n then go ns else removeAll p n :: go ns

/-- All descendant text-node strings, in document order
(BeautifulSoup's `tag.strings`). -/
def nodeStrings : Node → List String
  | .text s => [s]
  | .elem _ _ cs => go cs
where go : List Node → List String
  | [] => []
  | n :: ns => nodeStrings n ++ go ns

/-- BeautifulSoup `tag.get_text(" ", strip=True)`: each descendant text
node is stripped, the ones reducing to the empty string are dropped,
and the rest are joined with a single space. -/
def getTextStripped (n : Node) : String :=
  String.intercalate " " (((nodeStrings n).map pyStrip).filter fun s => s ≠ "")

/-- Matcher for `find("div", class_=cls)` / `find_all("div", class_=cls)`:
a `div` whose class attribute contains `cls`. -/
def isDivWithClass (cls : String) : Node → Bool
  | .elem tag classes _ => tag = "div" && classes.contains cls
  | .text _ => false

/-- Matcher of the first removal pass:
`find_all(["div", "h4"], class_=["footnotes", "crossrefs", "passage-other-trans"])`. -/
def isUnwantedBlock : Node → Bool
  | .elem tag classes _ =>
    (tag = "div" || tag = "h4") &&
      (classes.contains "footnotes" || classes.contains "crossrefs" ||
        classes.contains "passage-other-trans")
  | .text _ => false

/-- Matcher for section headers: `find_all("h3")`. -/
def isH3 : Node → Bool
  | .elem tag _ _ => tag = "h3"
  | .text _ => false

/-- Matcher for links: `find_all("a")`. -/
def isAnchor : Node → Bool
  | .elem tag _ _ => tag = "a"
  | .text _ => false

/-- Matcher for footnote markers:
`find_all("sup", class_=["footnote", "crossreference"])`. -/
def isNoteSup : Node → Bool
  | .elem tag classes _ =>
    tag = "sup" && (classes.contains "footnote" || classes.contains "crossreference")
  | .text _ => false

/-- Matcher for `find_all("p")`. -/
def isParagraph : Node → Bool
  | .elem tag _ _ => tag = "p"
  | .text _ => false

/-- Matcher for `find_all("div", class_="poetry")`. -/
def isPoetryDiv : Node → Bool :=
  isDivWithClass "poetry"

/-- Matcher for `find_all("p", class_="line")`. -/
def isLineParagraph : Node → Bool
  | .elem tag classes _ => tag = "p" && classes.contains "line"
  | .text _ => false

/-- The four removal passes of `_parse_passage`, in source order:
unwanted blocks, `h3` headers, anchors, footnote `sup` markers. -/
def cleanPassageDiv (d : Node) : Node :=
  removeAll isNoteSup (removeAll isAnchor (removeAll isH3 (removeAll isUnwantedBlock d)))

/-- One collection loop body of `_parse_passage`: for each node take
`get_text(" ", strip=True)` and keep it when non-empty. -/
def collectTexts (ns : List Node) : List String :=
  ns.filterMap fun n =>
    if getTextStripped n = "" then none else some (getTextStripped n)

/-- The `verses` list of `_parse_passage`: first every `p` descendant of
the cleaned container, then, for every `div.poetry` descendant, its
`p.line` descendants. -/
def collectVerses (d : Node) : List String :=
  collectTexts (findAll isParagraph d) ++
    (findAll isPoetryDiv d).flatMap fun pd => collectTexts (findAll isLineParagraph pd)

/-- `BibleService._parse_passage`: locate `div.passage-text` (else
`None`), clean it, collect the verses, join with newline, and return
`None` when the joined text strips to empty. -/
def parsePassage (html : Html) : Option String :=
  match soupFind (isDivWithClass "passage-text") html with
  | none => none
  | some passageDiv =>
    let scripture := String.intercalate "\n" (collectVerses (cleanPassageDiv passageDiv))
    if pyStrip scripture = "" then none else some scripture

/-- The result dictionary built by `fetch_passage`:
`{"success": .., "passage": .., "version": .., "text": .., "error": ..}`. -/
structure Envelope where
  success : Bool
  passage : String
  version : String
  text : Option String
  error : Option String
deriving DecidableEq, Repr

/-- The upstream fetch `_fetch_html(passage, version)`, abstracted:
`.ok` carries the parsed markup of the response body, `.error` the
message of the exception raised on a transport failure or by
`raise_for_status` on a non-success HTTP status. -/
abbrev Fetch := String → String → Except String Html

/-- The multi-passage loop of `fetch_passage`: for each reference in
order, fetch and parse, producing the block `"<ref>\n<text>"`, or
`"<ref>\n[Could not parse passage text]"` when parsing yields `None`;
the first fetch exception aborts the whole loop and propagates. -/
def fetchBlocks (fetch : Fetch) (version : String) : List String → Except String (List String)
  | [] => .ok []
  | r :: rs =>
    match fetch r version with
    | .error e => .error e
    | .ok html =>
      let block :=
        match parsePassage html with
        | some t => r ++ "\n" ++ t
        | none => r ++ "\n[Could not parse passage text]"
      match fetchBlocks fetch version rs with
      | .error e => .error e
      | .ok blocks => .ok (block :: blocks)

/-- `BibleService.fetch_passage`: split the input on semicolons; with
more than one segment run the multi-passage loop and join the blocks
with a blank line; otherwise fetch the original `passage` string,
parse, and build the single-passage envelope.  Any exception is caught
and converted to a failure envelope carrying its message. -/
def fetchPassage (fetch : Fetch) (passage : String) (version : String) : Envelope :=
  let passages := splitPassages passage
  if passages.length > 1 then
    match fetchBlocks fetch version passages with
    | .error e => ⟨false, passage, version, none, some e⟩
    | .ok results =>
      ⟨true, passage, version, some (String.intercalate "\n\n" results), none⟩
  else
    match fetch passage version with
    | .error e => ⟨false, passage, version, none, some e⟩
    | .ok html =>
      match parsePassage html with
      | none => ⟨false, passage, version, none, some "Could not parse passage text"⟩
      | some t => ⟨true, passage, version, some t, none⟩

/-- Per-reference block of multi-passage mode, as a function of the
reference and the markup its fetch returned. -/
def passageBlock (r : String) (html : Html) : String :=
  match parsePassage html with
  | some t => r ++ "\n" ++ t
  | none => r ++ "\n[Could not parse passage text]"

/-- Markup with a `passage-text` container holding one paragraph. -/
def loveDoc : Html :=
  [Node.elem "div" ["passage-text"] [Node.elem "p" [] [Node.text "God is love"]]]

/-- Markup whose container paragraph reads `"For God so loved the world"`. -/
def johnDoc : Html :=
  [Node.elem "div" ["passage-text"]
    [Node.elem "p" [] [Node.text "For God so loved the world"]]]

/-- Markup with no `passage-text` container. -/
def noContainerDoc : Html :=
  [Node.elem "html" [] [Node.elem "p" [] [Node.text "unrelated"]]]

/-- Markup with one ordinary paragraph and a poetry container holding
two `line`-class paragraphs. -/
def poetryDoc : Html :=
  [Node.elem "div" ["passage-text"]
    [Node.elem "p" [] [Node.text "Praise the Lord"],
     Node.elem "div" ["poetry"]
       [Node.elem "p" ["line"] [Node.text "The Lord is my shepherd"],
        Node.elem "p" ["line"] [Node.text "I shall not want"]]]]

/-- Markup whose container paragraph holds a single text node with a
run of two spaces inside it. -/
def doubleSpaceDoc : Html :=
  [Node.elem "div" ["passage-text"]
    [Node.elem "p" [] [Node.text "For  God so loved"]]]

/-- A comprehension `[f x for x in l if f x]` keeps exactly the mapped
values that are non-empty. -/
theorem filterMap_nonempty_eq_filter {α : Type} (f : α → String) (l : List α) :
    (l.filterMap fun x => if f x = "" then none else some (f x)) =
      (l.map f).filter (fun s => s ≠ "") := by
  induction l with
  | nil => rfl
  | cons a l ih =>
    by_cases h : f a = "" <;>
      simp [List.filterMap_cons, List.filter_cons, h, ih]

/-- A fetch failure anywhere in the reference list makes the
multi-passage loop abort with the exception of some failing
reference. -/
theorem fetchBlocks_eq_error (fetch : Fetch) (v : String) (rs : List String)
    (hfail : ∃ r ∈ rs, ∃ e, fetch r v = .error e) :
    ∃ e, fetchBlocks fetch v rs = .error e ∧ ∃ r ∈ rs, fetch r v = .error e := by
  induction rs with
  | nil => simp at hfail
  | cons r rs ih =>
    cases hf : fetch r v with
    | error e => exact ⟨e, by simp [fetchBlocks, hf], r, by simp, hf⟩
    | ok html =>
      obtain ⟨r2, hr2, e, he⟩ := hfail
      rcases List.mem_cons.mp hr2 with rfl | hmem
      · rw [hf] at he; exact absurd he (by simp)
      · obtain ⟨e2, hblocks, r3, hr3, he3⟩ := ih ⟨r2, hmem, e, he⟩
        exact ⟨e2, by simp [fetchBlocks, hf, hblocks],
          r3, List.mem_cons_of_mem _ hr3, he3⟩

/-- When every fetch succeeds, the multi-passage loop returns one block
per reference, in order. -/
theorem fetchBlocks_eq_ok (fetch : Fetch) (htmlOf : String → Html) (v : String)
    (rs : List String) (hok : ∀ r ∈ rs, fetch r v = .ok (htmlOf r)) :
    fetchBlocks fetch v rs = .ok (rs.map fun r => passageBlock r (htmlOf r)) := by
  induction rs with
  | nil => rfl
  | cons r rs ih =>
    have h1 : fetch r v = .ok (htmlOf r) := hok r (by simp)
    have h2 := ih fun r2 hr2 => hok r2 (List.mem_cons_of_mem _ hr2)
    simp [fetchBlocks, h1, h2, passageBlock]

/-- Unfolding of `fetch_passage` in the multi-passage branch. -/
theorem fetchPassage_multi (fetch : Fetch) (p v : String)
    (h : 1 < (splitPassages p).length) :
    fetchPassage fetch p v =
      (match fetchBlocks fetch v (splitPassages p) with
       | .error e => ⟨false, p, v, none, some e⟩
       | .ok results =>
         ⟨true, p, v, some (String.intercalate "\n\n" results), none⟩) := by
  have hDef : fetchPassage fetch p v =
      if (splitPassages p).length > 1 then
        (match fetchBlocks fetch v (splitPassages p) with
         | .error e => ⟨false, p, v, none, some e⟩
         | .ok results =>
           ⟨true, p, v, some (String.intercalate "\n\n" results), none⟩)
      else
        (match fetch p v with
         | .error e => ⟨false, p, v, none, some e⟩
         | .ok html =>
           match parsePassage html with
           | none => ⟨false, p, v, none, some "Could not parse passage text"⟩
           | some t => ⟨true, p, v, some t, none⟩) := rfl
  rw [hDef, if_pos h]

/-- Unfolding of `fetch_passage` in the single-passage branch. -/
theorem fetchPassage_single (fetch : Fetch) (p v : String)
    (h : ¬ 1 < (splitPassages p).length) :
    fetchPassage fetch p v =
      (match fetch p v with
       | .error e => ⟨false, p, v, none, some e⟩
       | .ok html =>
         match parsePassage html with
         | none => ⟨false, p, v, none, some "Could not parse passage text"⟩
         | some t => ⟨true, p, v, some t, none⟩) := by
  have hDef : fetchPassage fetch p v =
      if (splitPassages p).length > 1 then
        (match fetchBlocks fetch v (splitPassages p) with
         | .error e => ⟨false, p, v, none, some e⟩
         | .ok results =>
           ⟨true, p, v, some (String.intercalate "\n\n" results), none⟩)
      else
        (match fetch p v with
         | .error e => ⟨false, p, v, none, some e⟩
         | .ok html =>
           match parsePassage html with
           | none => ⟨false, p, v, none, some "Could not parse passage text"⟩
           | some t => ⟨true, p, v, some t, none⟩) := rfl
  rw [hDef, if_neg h]

/-- Text nodes placed directly under an element are its `strings`. -/
theorem nodeStrings_go_texts (ts : List String) :
    nodeStrings.go (ts.map Node.text) = ts := by
  induction ts with
  | nil => rfl
  | cons t ts ih => simp [nodeStrings.go, nodeStrings, ih]

/-- The character-level split is the identity on a list without
semicolons. -/
theorem splitSemiChars_no_semi (l : List Char) (h : ';' ∉ l) :
    splitSemiChars l = [l] := by
  induction l with
  | nil => rfl
  | cons c cs ih =>
    have hc : ¬ c = ';' := fun hq => h (hq ▸ List.mem_cons_self c cs)
    have hcs : ';' ∉ cs := fun hm => h (List.mem_cons_of_mem _ hm)
    simp [splitSemiChars, hc, ih hcs]

/-- C2: in a multi-reference call, a fetch failure for any reference
aborts the batch: the envelope is `success = false` with the original
input as `passage`, the translation as `version`, no `text` (partial
results discarded), and the failure's message as `error`. -/
theorem multi_fetch_failure_aborts_batch (fetch : Fetch) (p v : String)
    (hmulti : 1 < (splitPassages p).length)
    (hfail : ∃ r ∈ splitPassages p, ∃ e, fetch r v = .error e) :
    ∃ e, fetchPassage fetch p v = ⟨false, p, v, none, some e⟩
      ∧ ∃ r ∈ splitPassages p, fetch r v = .error e := by
  obtain ⟨e, hblocks, hwit⟩ := fetchBlocks_eq_error fetch v (splitPassages p) hfail
  exact ⟨e, by rw [fetchPassage_multi fetch p v hmulti, hblocks], hwit⟩

/-- Fetch oracle for the C2 witness: `"Romans 8:28"` fails. -/
def fetchFail : Fetch := fun r _ =>
  if r = "John 3:16" then .ok johnDoc else .error "boom"

/-- Witness for C2 at the batch `"John 3:16; Romans 8:28"` whose second
fetch fails. -/
theorem multi_fetch_failure_aborts_batch_witness :
    ∃ e, fetchPassage fetchFail "John 3:16; Romans 8:28" "ESV" =
        ⟨false, "John 3:16; Romans 8:28", "ESV", none, some e⟩
      ∧ ∃ r ∈ splitPassages "John 3:16; Romans 8:28", fetchFail r "ESV" = .error e :=
  multi_fetch_failure_aborts_batch fetchFail "John 3:16; Romans 8:28" "ESV"
    (by decide) ⟨"Romans 8:28", by decide, "boom", rfl⟩

/-- C3: in a multi-reference call where every fetch succeeds, the
envelope is `success = true` and `text` joins the per-reference blocks
with a blank line, `"<ref>\n<text>"` when parsing succeeds and
`"<ref>\n[Could not parse passage text]"` when it yields `None`. -/
theorem multi_success_joins_blocks (fetch : Fetch) (htmlOf : String → Html)
    (p v : String) (hmulti : 1 < (splitPassages p).length)
    (hok : ∀ r ∈ splitPassages p, fetch r v = .ok (htmlOf r)) :
    fetchPassage fetch p v =
      ⟨true, p, v,
        some (String.intercalate "\n\n"
          ((splitPassages p).map fun r => passageBlock r (htmlOf r))), none⟩ := by
  rw [fetchPassage_multi fetch p v hmulti,
    fetchBlocks_eq_ok fetch htmlOf v (splitPassages p) hok]

/-- Fetch oracle for the C3 witness: `"A"` yields parseable markup,
anything else container-less markup. -/
def fetchAB : Fetch := fun r _ =>
  if r = "A" then .ok loveDoc else .ok noContainerDoc

/-- Markup each reference of the C3 witness resolves to. -/
def htmlOfAB : String → Html := fun r =>
  if r = "A" then loveDoc else noContainerDoc

/-- Witness for C3 at the batch `"A; B"`: `A` parses, `B` yields the
placeholder block, the call still succeeds. -/
theorem multi_success_joins_blocks_witness :
    fetchPassage fetchAB "A; B" "ESV" =
      ⟨true, "A; B", "ESV",
        some "A\nGod is love\n\nB\n[Could not parse passage text]", none⟩ :=
  (multi_success_joins_blocks fetchAB htmlOfAB "A; B" "ESV" (by decide)
    (by
      intro r hr
      have hsp : splitPassages "A; B" = ["A", "B"] := by decide
      rw [hsp] at hr
      simp only [List.mem_cons, List.not_mem_nil, or_false] at hr
      rcases hr with rfl | rfl <;> rfl)).trans (by decide)

/-- C4: a single-reference call whose fetch succeeds but whose parse
yields `None` returns the failure envelope with the fixed message
`"Could not parse passage text"`. -/
theorem single_parse_miss_envelope (fetch : Fetch) (p v : String) (html : Html)
    (hone : (splitPassages p).length = 1)
    (hfetch : fetch p v = .ok html) (hparse : parsePassage html = none) :
    fetchPassage fetch p v = ⟨false, p, v, none, some "Could not parse passage text"⟩ := by
  rw [fetchPassage_single fetch p v (by omega), hfetch]
  simp [hparse]

/-- Fetch oracle for the C4 witness: always returns container-less
markup. -/
def fetchNC : Fetch := fun _ _ => .ok noContainerDoc

/-- Witness for C4 at `"John 3:16"` with container-less markup. -/
theorem single_parse_miss_envelope_witness :
    fetchPassage fetchNC "John 3:16" "ESV" =
      ⟨false, "John 3:16", "ESV", none, some "Could not parse passage text"⟩ :=
  single_parse_miss_envelope fetchNC "John 3:16" "ESV" noContainerDoc
    (by decide) rfl (by decide)

/-- C5: for every input, translation and upstream behaviour, the
envelope satisfies `success = true` iff `text` is present and `error`
absent, and `success = false` implies `text` absent. -/
theorem envelope_success_invariant (fetch : Fetch) (p v : String) :
    ((fetchPassage fetch p v).success = true ↔
      (fetchPassage fetch p v).text.isSome ∧ (fetchPassage fetch p v).error = none)
    ∧ ((fetchPassage fetch p v).success = false → (fetchPassage fetch p v).text = none) := by
  by_cases h : 1 < (splitPassages p).length
  · rw [fetchPassage_multi fetch p v h]
    cases fetchBlocks fetch v (splitPassages p) <;> simp
  · rw [fetchPassage_single fetch p v h]
    cases fetch p v with
    | error e => simp
    | ok html => cases hp : parsePassage html <;> simp [hp]

/-- Fetch oracle for the C5 witness: the transport always fails. -/
def fetchDown : Fetch := fun _ _ => .error "connection refused"

/-- Witness for C5 at a failing transport. -/
theorem envelope_success_invariant_witness :
    ((fetchPassage fetchDown "John 3:16" "ESV").success = true ↔
      (fetchPassage fetchDown "John 3:16" "ESV").text.isSome ∧
        (fetchPassage fetchDown "John 3:16" "ESV").error = none)
    ∧ ((fetchPassage fetchDown "John 3:16" "ESV").success = false →
        (fetchPassage fetchDown "John 3:16" "ESV").text = none) :=
  envelope_success_invariant fetchDown "John 3:16" "ESV"

/-- C6: the splitter equals splitting on `';'`, trimming every segment,
and dropping the empty ones, order and duplicates preserved; on the
spec's example it yields `["John 3:16", "Romans 8:28"]`, and an input
without semicolons that is not all whitespace yields the one-element
list of its trimmed self. -/
theorem split_semicolon_trim_drop (s : String) :
    splitPassages s = ((pySplitSemi s).map pyStrip).filter (fun x => x ≠ "")
    ∧ splitPassages "John 3:16; Romans 8:28 ; ;  " = ["John 3:16", "Romans 8:28"]
    ∧ (';' ∉ s.data → pyStrip s ≠ "" → splitPassages s = [pyStrip s]) := by
  refine ⟨filterMap_nonempty_eq_filter pyStrip (pySplitSemi s), by decide, ?_⟩
  intro hns hne
  unfold splitPassages pySplitSemi
  rw [splitSemiChars_no_semi s.data hns]
  simp [List.filterMap_cons, hne]

/-- Witness for C6 on the semicolon-free input `"John 3:16"`. -/
theorem split_semicolon_trim_drop_witness :
    splitPassages "John 3:16" = [pyStrip "John 3:16"] :=
  (split_semicolon_trim_drop "John 3:16").2.2 (by decide) (by decide)

/-- C7: extraction never yields an empty-but-present result: with no
`passage-text` container the result is absent, and a present result is
exactly the newline-joined verse collection, returned untrimmed, whose
own trim is non-empty. -/
theorem parse_never_empty_present (html : Html) :
    (soupFind (isDivWithClass "passage-text") html = none → parsePassage html = none)
    ∧ ∀ s, parsePassage html = some s →
        pyStrip s ≠ ""
        ∧ ∃ d, soupFind (isDivWithClass "passage-text") html = some d
            ∧ s = String.intercalate "\n" (collectVerses (cleanPassageDiv d)) := by
  constructor
  · intro h
    unfold parsePassage
    rw [h]
  · intro s hs
    unfold parsePassage at hs
    cases hfind : soupFind (isDivWithClass "passage-text") html with
    | none => rw [hfind] at hs; cases hs
    | some d =>
      rw [hfind] at hs
      dsimp only at hs
      by_cases hstrip :
          pyStrip (String.intercalate "\n" (collectVerses (cleanPassageDiv d))) = ""
      · rw [if_pos hstrip] at hs; cases hs
      · rw [if_neg hstrip] at hs
        injection hs with hval
        subst hval
        exact ⟨hstrip, d, rfl, rfl⟩

/-- Witness for C7 at markup holding one paragraph. -/
theorem parse_never_empty_present_witness :
    pyStrip "God is love" ≠ ""
    ∧ ∃ d, soupFind (isDivWithClass "passage-text") loveDoc = some d
        ∧ "God is love" = String.intercalate "\n" (collectVerses (cleanPassageDiv d)) :=
  (parse_never_empty_present loveDoc).2 "God is love" (by decide)

/-- C8 counterexample: inside a single text node, a run of two spaces
survives extraction, so not every whitespace run is collapsed to one
space as the claim states. -/
theorem first_pass_whitespace_counterexample :
    parsePassage doubleSpaceDoc = some "For  God so loved"
    ∧ "For  God so loved" ≠ "For God so loved" := by
  exact ⟨by decide, by decide⟩

/-- C8 as amended: the emitted line trims each text node, drops the ones
reducing to empty, and joins the rest with single spaces — collapsing
whitespace only across text-node boundaries — and every collected node
whose text reduces to empty is skipped. -/
theorem first_pass_text_node_normalization (ts : List String) (tag : String)
    (cls : List String) (ns : List Node) :
    getTextStripped (Node.elem tag cls (ts.map Node.text)) =
      String.intercalate " " ((ts.map pyStrip).filter fun s => s ≠ "")
    ∧ collectTexts ns = (ns.map getTextStripped).filter fun s => s ≠ "" := by
  constructor
  · unfold getTextStripped
    rw [show nodeStrings (Node.elem tag cls (ts.map Node.text)) = ts from
      nodeStrings_go_texts ts]
  · exact filterMap_nonempty_eq_filter getTextStripped ns

/-- Fetch oracle for the C9 counterexample: only the trimmed reference
`"John 3:16"` resolves; everything else fails. -/
def fetchTrimmedOnly : Fetch := fun r _ =>
  if r = "John 3:16" then .ok johnDoc else .error "reference not found"

/-- C9 counterexample: on input `" John 3:16 "`, the fetch is performed
with the raw untrimmed string, not with the trimmed segment: an
upstream that resolves only `"John 3:16"` makes the call fail, while
the claim predicts the same success it gives on `"John 3:16"`. -/
theorem single_mode_fetches_raw_counterexample :
    fetchPassage fetchTrimmedOnly " John 3:16 " "ESV" =
      ⟨false, " John 3:16 ", "ESV", none, some "reference not found"⟩
    ∧ fetchPassage fetchTrimmedOnly "John 3:16" "ESV" =
      ⟨true, "John 3:16", "ESV", some "For God so loved the world", none⟩ := by
  exact ⟨by decide, by decide⟩

/-- C9 as amended: single-reference mode fetches the original input
string exactly as given, so the envelope depends only on the upstream's
behaviour at the untrimmed input. -/
theorem single_mode_depends_on_raw_input (f g : Fetch) (p v : String)
    (hlen : (splitPassages p).length ≤ 1) (hfg : f p v = g p v) :
    fetchPassage f p v = fetchPassage g p v := by
  rw [fetchPassage_single f p v (by omega), fetchPassage_single g p v (by omega), hfg]

/-- Fetch oracle serving exactly the raw input `" John 3:16 "`. -/
def fetchRawA : Fetch := fun r _ =>
  if r = " John 3:16 " then .ok johnDoc else .error "down"

/-- Fetch oracle agreeing with `fetchRawA` on `" John 3:16 "` only. -/
def fetchRawB : Fetch := fun r _ =>
  if r = " John 3:16 " then .ok johnDoc else .error "unreachable"

/-- Witness for the amended C9 at `" John 3:16 "`. -/
theorem single_mode_depends_on_raw_input_witness :
    fetchPassage fetchRawA " John 3:16 " "ESV" =
      fetchPassage fetchRawB " John 3:16 " "ESV" :=
  single_mode_depends_on_raw_input fetchRawA fetchRawB " John 3:16 " "ESV"
    (by decide) rfl

/-- C10: when the split yields no segment, `fetch_passage` takes the
single-reference branch, fetching the original unmodified input once
and assembling the ordinary single-reference envelope, whose `passage`
field is the original string. -/
theorem empty_split_single_branch (fetch : Fetch) (p v : String)
    (hempty : splitPassages p = []) :
    fetchPassage fetch p v =
      (match fetch p v with
       | .error e => ⟨false, p, v, none, some e⟩
       | .ok html =>
         match parsePassage html with
         | none => ⟨false, p, v, none, some "Could not parse passage text"⟩
         | some t => ⟨true, p, v, some t, none⟩)
    ∧ (fetchPassage fetch p v).passage = p := by
  have h : ¬ 1 < (splitPassages p).length := by rw [hempty]; simp
  have h1 := fetchPassage_single fetch p v h
  refine ⟨h1, ?_⟩
  rw [h1]
  cases fetch p v with
  | error e => rfl
  | ok html => cases hp : parsePassage html <;> simp [hp]

/-- Fetch oracle for the C10 witness: resolves the raw input `" ; "`. -/
def fetchSemis : Fetch := fun r _ =>
  if r = " ; " then .ok loveDoc else .error "unused"

/-- Witness for C10 at the all-semicolon/whitespace input `" ; "`. -/
theorem empty_split_single_branch_witness :
    (fetchPassage fetchSemis " ; " "ESV").passage = " ; " :=
  (empty_split_single_branch fetchSemis " ; " "ESV" (by decide)).2

/-- C1: the code's behaviour at the failing input: with one ordinary
paragraph and a poetry container of two `line`-class paragraphs, the
recursive first paragraph pass already collects the poetry lines and
the poetry pass collects them again, so each poetry line appears twice
— not once, as the claim states. -/
theorem parse_duplicates_poetry_lines :
    parsePassage poetryDoc =
      some "Praise the Lord\nThe Lord is my shepherd\nI shall not want\nThe Lord is my shepherd\nI shall not want"
    ∧ parsePassage poetryDoc ≠
      some "Praise the Lord\nThe Lord is my shepherd\nI shall not want" := by
  exact ⟨by decide, by decide⟩
